import Mathlib

/-!
Shallow embedding of the backend orchestration server (server.ts and the
authentication middleware) for the research-paper pipeline.  Outbound
network calls (arXiv search, AI completion endpoint, database insert) are
modelled by environment oracles describing each call outcome; handlers
are pure functions from request data and environment to an HTTP response
together with a trace counting the outbound calls that were issued.
-/

set_option linter.unnecessarySeqFocus false

/-- JS truthiness of a possibly-absent string: `undefined` and the empty
string are falsy, every other string is truthy. -/
def jsTruthy : Option String → Bool
  | none => false
  | some s => s ≠ ""

/-- JS `x || d` for a possibly-absent string value `x`: the default `d` is
returned when `x` is `undefined` or the empty string. -/
def jsOr (x : Option String) (d : String) : String :=
  match x with
  | none => d
  | some s => if s = "" then d else s

/-- Prefix test on character lists, used by the JS string operations
below. -/
def isPrefixChars : List Char → List Char → Bool
  | [], _ => true
  | _ :: _, [] => false
  | p :: ps, c :: cs => p = c && isPrefixChars ps cs

/-- Drop leading whitespace characters. -/
def trimLeftChars : List Char → List Char
  | [] => []
  | c :: rest => if c.isWhitespace then trimLeftChars rest else c :: rest

/-- JS String.trim: remove leading and trailing whitespace.  Defined over
character lists by structural recursion so that concrete runs reduce. -/
def jsTrim (s : String) : String :=
  ⟨trimLeftChars ((trimLeftChars s.data.reverse).reverse)⟩

/-- Replace every occurrence of a non-empty pattern, fuel-indexed by the
input length (JS String.replace with a global regular expression). -/
def replaceAllGo (pat rep : List Char) : Nat → List Char → List Char
  | _, [] => []
  | 0, s => s
  | fuel + 1, c :: cs =>
    if isPrefixChars pat (c :: cs) then
      rep ++ replaceAllGo pat rep fuel (List.drop (pat.length - 1) cs)
    else
      c :: replaceAllGo pat rep fuel cs

/-- JS String.replace with a global pattern: replace every occurrence. -/
def jsReplaceAll (s pat rep : String) : String :=
  ⟨replaceAllGo pat.data rep.data s.data.length s.data⟩

/-- Replace the first occurrence of a non-empty pattern. -/
def replaceFirstGo (pat rep : List Char) : List Char → List Char
  | [] => []
  | c :: cs =>
    if isPrefixChars pat (c :: cs) then rep ++ List.drop (pat.length - 1) cs
    else c :: replaceFirstGo pat rep cs

/-- JS String.replace with a string pattern: replace only the first
occurrence. -/
def replaceFirst (s pat rep : String) : String :=
  ⟨replaceFirstGo pat.data rep.data s.data⟩

/-- Splitting on a non-empty separator, fuel-indexed by the input
length; acc holds the reversed current piece. -/
def splitOnGo (sep : List Char) : Nat → List Char → List Char → List String
  | _, [], acc => [⟨acc.reverse⟩]
  | 0, s, acc => [⟨acc.reverse ++ s⟩]
  | fuel + 1, c :: cs, acc =>
    if isPrefixChars sep (c :: cs) then
      String.mk acc.reverse :: splitOnGo sep fuel (List.drop (sep.length - 1) cs) []
    else
      splitOnGo sep fuel cs (c :: acc)

/-- JS String.split with a non-empty string separator. -/
def jsSplit (s sep : String) : List String :=
  splitOnGo sep.data s.data.length s.data []

/-- JS String.startsWith. -/
def jsStartsWith (s pre : String) : Bool :=
  isPrefixChars pre.data s.data

/-- Paper record parsed from one arXiv entry (interface Paper). -/
structure Paper where
  title : String
  authors : List String
  abstract : String
  link : String
deriving Repr, DecidableEq

/-- Per-paper analysis record (interface PaperAnalysis). -/
structure PaperAnalysis where
  paper : Paper
  analysis : String
deriving Repr, DecidableEq

/-- Raw sub-fields of one XML `entry` element as extracted by the DOM
calls in server.ts: each field is the `textContent` of the relevant
sub-element, absent when the sub-element is missing. -/
structure Entry where
  title : Option String
  authors : List (Option String)
  summary : Option String
  id : Option String
deriving Repr, DecidableEq

/-- Parsing of one entry into a Paper, following the map over entries in
server.ts: title has newlines replaced by spaces and is trimmed, author
and summary text is trimmed, absent fields default to the empty string. -/
def paperOfEntry (e : Entry) : Paper :=
  { title := (e.title.map (fun s => jsTrim (jsReplaceAll s "\n" " "))).getD ""
    authors := e.authors.map (fun a => (a.map jsTrim).getD "")
    abstract := (e.summary.map jsTrim).getD ""
    link := e.id.getD "" }

/-- Outcome of one call to the AI completion endpoint.
`thrown msg` models the fetch (or body read) throwing, with `msg` the
error message when the thrown value is an Error; `notOk` a non-success
HTTP status; `okBody choices` a success response whose parsed JSON has
`choices` as given: `none` when `choices` is missing or not an array,
otherwise the list of `choices[k]?.message?.content` values, each `none`
when the message or its content is absent. -/
inductive AIResp where
  | thrown (msg : Option String)
  | notOk
  | okBody (choices : Option (List (Option String)))
deriving Repr, DecidableEq

/-- Outcome of the arXiv search fetch: thrown, non-success status with its
statusText, or a parsed document with its list of entry elements. -/
inductive ArxivResult where
  | thrown (msg : Option String)
  | notOk (statusText : String)
  | ok (entries : List Entry)
deriving Repr, DecidableEq

/-- Summary-mode enrichment of one paper in the search flow: the result
string produced from the outcome of that paper completion call
(server.ts, the body of the map inside Promise.all in searchPapers). -/
def summarizeOne (_paper : Paper) (r : AIResp) : String :=
  match r with
  | .thrown _ => "Summary generation failed"
  | .notOk => "Summary failed due to API error"
  | .okBody none => "Summary failed: No valid response"
  | .okBody (some []) => "Summary failed: No valid response"
  | .okBody (some (c :: _)) => jsOr c "Summary not available"

/-- Analysis-mode enrichment of one paper in the report flow (server.ts,
the body of the map inside Promise.all in the generate-report handler). -/
def analyzeOne (paper : Paper) (r : AIResp) : PaperAnalysis :=
  match r with
  | .thrown _ => { paper := paper, analysis := "Analysis failed due to server error" }
  | .notOk => { paper := paper, analysis := "Analysis failed due to API error" }
  | .okBody none => { paper := paper, analysis := "Analysis failed: No valid response from AI" }
  | .okBody (some []) => { paper := paper, analysis := "Analysis failed: No valid response from AI" }
  | .okBody (some (c :: _)) => { paper := paper, analysis := jsOr c "Analysis failed" }

/-- The settled value of `Promise.all(papers.map(...))` in summary mode:
the i-th slot is the summary of the i-th paper, built from the outcome
`resp i` of the i-th outbound completion call. -/
def summariesOf (papers : List Paper) (resp : Nat → AIResp) : List String :=
  papers.mapIdx (fun i p => summarizeOne p (resp i))

/-- The settled value of `Promise.all(papers.map(...))` in analysis mode. -/
def analysesOf (papers : List Paper) (resp : Nat → AIResp) : List PaperAnalysis :=
  papers.mapIdx (fun i p => analyzeOne p (resp i))

/-- Result slots of an n-call batch after the calls complete in the order
given by `order` (a list of call indices): starting from n unresolved
slots, each completing call writes its result into its own slot.  This is
the arena-indexed join underlying Promise.all; `order` is the completion
order, which the scheduler does not control. -/
def settleAll (n : Nat) (f : Nat → α) (order : List Nat) : List (Option α) :=
  order.foldl (fun acc i => acc.set i (some (f i))) (List.replicate n none)

/-- Environment for one search-papers request: outcome of the arXiv
fetch, outcome of the i-th per-paper summary call, and outcome of the
consolidated-summary call. -/
structure SearchEnv where
  arxiv : ArxivResult
  summaryResp : Nat → AIResp
  consolidatedResp : AIResp

/-- Trace of outbound calls issued while serving a search-papers
request. -/
structure STrace where
  searchCalls : Nat
  summaryCalls : Nat
  consolidatedCalls : Nat
deriving Repr, DecidableEq

/-- Response of the search-papers handler. -/
inductive SearchResponse where
  | badRequest (error : String)
  | serverError (error : String)
  | success (papers : List Paper) (summaries : List String) (consolidatedSummary : String)
deriving Repr, DecidableEq

/-- The searchPapers handler of server.ts: validate the query, fetch and
parse the arXiv feed, short-circuit on zero entries, enrich every paper
in parallel, then request one consolidated summary. -/
def searchPapers (query : Option String) (env : SearchEnv) : SearchResponse × STrace :=
  if jsTruthy query = false then
    (.badRequest "Query is required", ⟨0, 0, 0⟩)
  else
    match env.arxiv with
    | .thrown msg => (.serverError (msg.getD "Internal server error"), ⟨1, 0, 0⟩)
    | .notOk statusText => (.serverError ("ArXiv API error: " ++ statusText), ⟨1, 0, 0⟩)
    | .ok entries =>
      if entries.length = 0 then
        (.success [] [] "", ⟨1, 0, 0⟩)
      else
        let papers := entries.map paperOfEntry
        let summaries := summariesOf papers env.summaryResp
        match env.consolidatedResp with
        | .thrown msg =>
          (.serverError (msg.getD "Internal server error"), ⟨1, papers.length, 1⟩)
        | .notOk =>
          (.serverError "Failed to generate consolidated summary", ⟨1, papers.length, 1⟩)
        | .okBody none =>
          (.serverError "Invalid consolidated summary response", ⟨1, papers.length, 1⟩)
        | .okBody (some []) =>
          (.serverError "Invalid consolidated summary response", ⟨1, papers.length, 1⟩)
        | .okBody (some (c :: _)) =>
          (.success papers summaries (jsOr c "Overview not available"), ⟨1, papers.length, 1⟩)

/-- One entry of the Dataset section of the report prompt, as produced by
the map over paperAnalyses in server.ts (authors joined by a comma). -/
def datasetEntry (pa : PaperAnalysis) : String :=
  "Title: **" ++ pa.paper.title ++ "**  \n   Authors: " ++
    String.intercalate ", " pa.paper.authors ++ "  \n   Abstract: " ++
    pa.paper.abstract ++ "  \n   Analysis: " ++ pa.analysis ++ "  \n  "

/-- The structured-report prompt template of the generate-report handler,
with the literal query, the current date string and the dataset of paper
analyses interpolated exactly as in server.ts. -/
def reportPrompt (query dateStr : String) (paperAnalyses : List PaperAnalysis) : String :=
  "Generate a comprehensive, evidence-based research report on \"" ++ query ++
  "\" in a structured academic format. Base the analysis solely on the provided papers, ensuring all claims are supported by their findings. Follow this format precisely, keeping sections concise (max 150 words each unless specified) and avoiding vague generalizations. Use an academic writing style.\n\n---\n\n## " ++
  query ++ "  \n*Generated on " ++ dateStr ++
  "*\n\n---\n\n### Abstract  \nSummarize the research (100-150 words):  \n- Objective: What is the main goal of this research?  \n- Methodology: Overview of key methods used across papers.  \n- Findings: Highlight 2-3 major results.  \n- Significance: Why do these findings matter?  \n\n---\n\n### Introduction  \nProvide context (100-150 words):  \n- Background: Why is \"" ++
  query ++
  "\" a significant topic?  \n- Problem Statement: What specific issue does this research address?  \n- Research Questions: List 2-3 key questions explored in the papers.  \n- Scope: Focus on insights from the provided papers only.  \n\n---\n\n### Literature Review  \nAnalyze existing research (150-200 words):  \n- Current State: Summarize trends from the papers.  \n- Frameworks: Identify common theories or models (if any).  \n- Gaps: Highlight 1-2 gaps the papers address or leave unresolved.  \n- Key Terms: Define 2-3 critical concepts from the papers.  \n\n---\n\n### Methodology  \nDetail methods (150 words):  \n- Approach: Qualitative, quantitative, or mixed?  \n- Data Sources: Types of data used in the papers (e.g., experiments, surveys).  \n- Analysis Techniques: Specific methods (e.g., statistical tests, simulations).  \n- Tools: Mention software or frameworks (if specified).  \n\n---\n\n### Results and Analysis  \nPresent findings in a table (max 5 rows), followed by a brief analysis (150 words):  \n\n| Category         | Finding             | Evidence (Cite Paper Title) | Impact             |  \n|------------------|---------------------|-----------------------------|--------------------|  \n| [e.g., Efficiency] | [e.g., 20% improvement] | [e.g., \"Paper Title\"]   | [e.g., Scalability] |  \n\n- Analysis: Compare findings, note strengths/weaknesses, and link to evidence.  \n\n---\n\n### Discussion  \nEvaluate implications (150 words):  \n- Interpretation: What do the results mean for \"" ++
  query ++
  "\"?  \n- Comparison: How do findings align with broader research?  \n- Implications: 1-2 practical or theoretical applications.  \n- Limitations: 1-2 constraints from the papers.  \n\n---\n\n### Conclusion  \nSummarize takeaways (100-150 words):  \n- Contributions: 1-2 new insights from the papers.  \n- Key Insights: What should readers remember?  \n- Future Directions: 1-2 specific research questions for future work.  \n\n---\n\n### References  \nList all papers in APA format:  \n- [Author(s)]. ([Year]). [Title]. [Link].  \n\n---\n\n**Guidelines:**  \n1. Use only the provided papers as the dataset.  \n2. Cite paper titles in the text (e.g., \"As shown in \x27Paper Title\x27\").  \n3. Include quantitative data (e.g., percentages, metrics) where available.  \n4. Avoid speculation; ground all statements in the papersâ€™ abstracts or analyses.  \n5. Ensure table data is concise and relevant to \"" ++
  query ++ "\".  \n\n**Dataset:**  \n" ++
  String.intercalate "\n" (paperAnalyses.map datasetEntry)

/-- Authenticated user record as attached to the request by the auth
middleware; only the id is consumed by the handlers. -/
structure UserRec where
  id : String
deriving Repr, DecidableEq

/-- Outcome of the database insert in the report flow: a save error with
its message, a missing returned record, or a successful insert returning
the stored row. -/
inductive DbOutcome where
  | saveError (msg : String)
  | noRecord
  | success
deriving Repr, DecidableEq

/-- The stored report row returned by the insert (insert-and-return
semantics of the persistence API): the columns written by the handler. -/
structure ReportRecord where
  user_id : String
  title : String
  content : String
deriving Repr, DecidableEq

/-- Environment for one generate-report request. -/
structure ReportEnv where
  arxiv : ArxivResult
  analysisResp : Nat → AIResp
  reportResp : AIResp
  dateStr : String
  db : DbOutcome

/-- Trace of outbound calls issued while serving a generate-report
request; reportPromptSent records the prompt of the report completion
call when that call is issued. -/
structure RTrace where
  searchCalls : Nat
  analysisCalls : Nat
  reportCalls : Nat
  dbInserts : Nat
  reportPromptSent : Option String
deriving Repr, DecidableEq

/-- Response of the generate-report handler. -/
inductive ReportResponse where
  | badRequest (error : String)
  | serverError (error : String)
  | success (report : String) (papers : List PaperAnalysis) (savedReport : ReportRecord)
deriving Repr, DecidableEq

/-- The generate-report route handler of server.ts: validate the query,
fetch and parse the arXiv feed (no empty-result short-circuit), analyze
every paper in parallel, build the structured-report prompt, request the
report completion, then require a user id and insert the report row. -/
def generateReport (query : Option String) (user : Option UserRec) (env : ReportEnv) :
    ReportResponse × RTrace :=
  if jsTruthy query = false then
    (.badRequest "Query is required", ⟨0, 0, 0, 0, none⟩)
  else
    match env.arxiv with
    | .thrown _ => (.serverError "Failed to fetch papers from arXiv", ⟨1, 0, 0, 0, none⟩)
    | .notOk _ => (.serverError "Failed to fetch papers from arXiv", ⟨1, 0, 0, 0, none⟩)
    | .ok entries =>
      let papers := entries.map paperOfEntry
      let paperAnalyses := analysesOf papers env.analysisResp
      let q := query.getD ""
      let prompt := reportPrompt q env.dateStr paperAnalyses
      match env.reportResp with
      | .thrown _ =>
        (.serverError "Failed to generate report content", ⟨1, papers.length, 1, 0, some prompt⟩)
      | .notOk =>
        (.serverError "Failed to generate report content", ⟨1, papers.length, 1, 0, some prompt⟩)
      | .okBody none =>
        (.serverError "Failed to generate report content", ⟨1, papers.length, 1, 0, some prompt⟩)
      | .okBody (some []) =>
        (.serverError "Failed to generate report content", ⟨1, papers.length, 1, 0, some prompt⟩)
      | .okBody (some (c :: _)) =>
        match c with
        | none =>
          (.serverError "Failed to generate report content", ⟨1, papers.length, 1, 0, some prompt⟩)
        | some finalReport =>
          if finalReport = "" then
            (.serverError "Failed to generate report content", ⟨1, papers.length, 1, 0, some prompt⟩)
          else
            match user with
            | none =>
              (.serverError "No authenticated user found", ⟨1, papers.length, 1, 0, some prompt⟩)
            | some u =>
              if u.id = "" then
                (.serverError "No authenticated user found", ⟨1, papers.length, 1, 0, some prompt⟩)
              else
                match env.db with
                | .saveError msg =>
                  (.serverError ("Failed to save report: " ++ msg),
                    ⟨1, papers.length, 1, 1, some prompt⟩)
                | .noRecord =>
                  (.serverError "No report record returned after save",
                    ⟨1, papers.length, 1, 1, some prompt⟩)
                | .success =>
                  (.success finalReport paperAnalyses ⟨u.id, q, finalReport⟩,
                    ⟨1, papers.length, 1, 1, some prompt⟩)

/-- JS template-literal interpolation of a possibly-undefined string
value: `undefined` renders as the text "undefined". -/
def jsInterp : Option String → String
  | none => "undefined"
  | some s => s

/-- JSON value as produced by JSON.parse, sufficient for the response
bodies handled here. -/
inductive JsValue where
  | null
  | bool (b : Bool)
  | num (n : Int)
  | str (s : String)
  | arr (elems : List JsValue)
  | obj (fields : List (String × JsValue))

/-- Lookup of an object field by key (first match). -/
def lookupField : List (String × JsValue) → String → Option JsValue
  | [], _ => none
  | (k2, v2) :: rest, k => if k2 = k then some v2 else lookupField rest k

/-- Property read `v[k]` on a JSON value: only objects yield fields. -/
def getField (v : JsValue) (k : String) : Option JsValue :=
  match v with
  | .obj fields => lookupField fields k
  | _ => none

/-- Assignment into an object field list: replace the first binding of
the key in place, or append a new binding at the end (JS property
assignment order semantics). -/
def setEntry : List (String × JsValue) → String → JsValue → List (String × JsValue)
  | [], k, x => [(k, x)]
  | (k2, v2) :: rest, k, x =>
    if k2 = k then (k2, x) :: rest else (k2, v2) :: setEntry rest k x

/-- Property assignment `v[k] = x` on a JSON.parse result, as observable
in the serialized response: on an object the field is replaced or
appended; on null the assignment throws a TypeError, modelled as none;
on any other parse result the assignment leaves the serialized body
unchanged (primitives ignore the write in non-strict mode, and JSON
serialization of an array drops non-index properties). -/
def assignField (v : JsValue) (k : String) (x : JsValue) : Option JsValue :=
  match v with
  | .null => none
  | .obj fields => some (.obj (setEntry fields k x))
  | other => some other

/-- The prompt of the main suggest-prompt completion call, with the
initialQuery body field interpolated (rendering "undefined" when the
field is absent), exactly as in server.ts. -/
def suggestPromptText (initialQuery : Option String) : String :=
  "As a research assistant, analyze this query and suggest improvements:\n          \n          Original query: \"" ++
  jsInterp initialQuery ++
  "\"\n\n          Provide response in this JSON format:\n          \x7b\n            \"refinedQuery\": \"improved version of the query\",\n            \"suggestedElements\": \x7b\n              \"specificity\": [\n                \"specific aspect 1\",\n                \"specific aspect 2\"\n              ],\n              \"researchType\": [\n                \"methodology 1\",\n                \"methodology 2\"\n              ],\n              \"practicalApplication\": [\n                \"application 1\",\n                \"application 2\"\n              ]\n            \x7d,\n            \"questionVariations\": [\n              \x7b\n                \"question\": \"more specific version of the query\",\n                \"explanation\": \"why this version is more effective\"\n              \x7d,\n              \x7b\n                \"question\": \"alternative approach to the query\",\n                \"explanation\": \"how this approach differs\"\n              \x7d\n            ],\n            \"relatedConcepts\": [\n              \"technical term 1\",\n              \"technical term 2\"\n            ]\n          \x7d\n\n          Guidelines:\n          1. Make suggestions more specific and measurable\n          2. Include relevant technical terms\n          3. Consider different research approaches\n          4. Focus on practical applications\n          5. Break down complex queries into specific elements"

/-- The prompt of the auxiliary research-tag completion call. -/
def tagPromptText (query : Option String) : String :=
  "Generate 3-4 relevant research type tags for this query: \"" ++ jsInterp query ++
  "\"\n          Return only the tags separated by commas, like: \"Specificity, Research type, Practical application\""

/-- The getResearchTags helper of server.ts, as a function of the tag
call outcome: any failure of the call (thrown fetch, non-success status,
missing or empty choices list, or absent message content, whose split
throws and is caught) yields the empty list; a successful call yields
the content split on commas with each tag trimmed. -/
def getResearchTags (tagResp : AIResp) : List String :=
  match tagResp with
  | .thrown _ => []
  | .notOk => []
  | .okBody none => []
  | .okBody (some []) => []
  | .okBody (some (none :: _)) => []
  | .okBody (some (some c :: _)) => (jsSplit c ",").map jsTrim

/-- Environment for one suggest-prompt request: the outcome of the main
suggestion call, the JS runtime JSON.parse (none models a parse throw),
and the outcome of the auxiliary tag call. -/
structure SuggestEnv where
  suggestionResp : AIResp
  jsonParse : String → Option JsValue
  tagResp : AIResp

/-- Response of the suggest-prompt route: a JSON body, or an error
forwarded to the error-handling middleware via next(error). -/
inductive SuggestResponse where
  | forwarded
  | jsonOk (body : JsValue)

/-- The suggest-prompt route handler of server.ts: issue the suggestion
completion call with the interpolated prompt, parse the first choice
content as JSON (empty-object default for absent content), issue the tag
call, assign its result into the researchTags property (a TypeError when
the parsed value is null), and respond with the merged object; every
thrown error, the TypeError included, is forwarded via next(error).  The
second component lists the prompts of the AI calls issued, in order. -/
def suggestPromptRoute (initialQuery : Option String) (env : SuggestEnv) :
    SuggestResponse × List String :=
  let p1 := suggestPromptText initialQuery
  match env.suggestionResp with
  | .thrown _ => (.forwarded, [p1])
  | .notOk => (.forwarded, [p1])
  | .okBody none => (.forwarded, [p1])
  | .okBody (some []) => (.forwarded, [p1])
  | .okBody (some (c :: _)) =>
    match env.jsonParse (jsOr c "\x7b\x7d") with
    | none => (.forwarded, [p1])
    | some suggestions =>
      let researchTags := getResearchTags env.tagResp
      (match assignField suggestions "researchTags" (.arr (researchTags.map .str)) with
       | none => .forwarded
       | some body => .jsonOk body,
        [p1, tagPromptText initialQuery])

/-- Outcome of the identity-service token validation
(supabase.auth.getUser): a user identity, an error or missing user, or a
thrown failure. -/
inductive GetUserResult where
  | ok (u : UserRec)
  | err
  | thrown
deriving Repr, DecidableEq

/-- Outcome of an authentication middleware: a denied response with its
status and error message, or access granted with the user attached to
the request. -/
inductive AuthOutcome where
  | denied (status : Nat) (msg : String)
  | granted (u : UserRec)
deriving Repr, DecidableEq

/-- The authenticateToken middleware (middleware/auth.ts): requires the
Authorization header to start with "Bearer ", validates the second
space-separated token with the identity service, and answers 401 on any
failure. -/
def authenticateToken (authHeader : Option String) (getUser : String → GetUserResult) :
    AuthOutcome :=
  match authHeader with
  | none => .denied 401 "No token provided"
  | some h =>
    if jsStartsWith h "Bearer " = false then .denied 401 "No token provided"
    else
      match getUser ((jsSplit h " ").getD 1 "") with
      | .ok u => .granted u
      | .err => .denied 401 "Invalid token"
      | .thrown => .denied 401 "Authentication failed"

/-- The authenticateUser middleware (server.ts): requires a non-empty
Authorization header of any form, strips a first occurrence of
"Bearer " from it, and validates the remainder with the identity
service. -/
def authenticateUser (authHeader : Option String) (getUser : String → GetUserResult) :
    AuthOutcome :=
  match authHeader with
  | none => .denied 401 "No authorization header"
  | some h =>
    if h = "" then .denied 401 "No authorization header"
    else
      match getUser (replaceFirst h "Bearer " "") with
      | .ok u => .granted u
      | .err => .denied 401 "Invalid token"
      | .thrown => .denied 401 "Authentication failed"

/-- Express route composition router.post(path, middleware, handler):
when the middleware responds without calling next(), the handler never
runs and no outbound call is issued; otherwise the handler runs with the
attached user.  The handler yields its response together with the number
of outbound calls it issues; the route result carries either the handler
response or the auth-denied status and message. -/
def runProtected {ρ : Type} (auth : AuthOutcome) (handler : UserRec → ρ × Nat) :
    (ρ ⊕ (Nat × String)) × Nat :=
  match auth with
  | .denied s m => (.inr (s, m), 0)
  | .granted u => (.inl (handler u).1, (handler u).2)

/-- Whether the auxiliary tag call counts as failed: thrown fetch,
non-success status, structurally invalid body, or absent content whose
split throws. -/
def tagCallFails : AIResp → Bool
  | .thrown _ => true
  | .notOk => true
  | .okBody none => true
  | .okBody (some []) => true
  | .okBody (some (none :: _)) => true
  | .okBody (some (some _ :: _)) => false

/-- A placeholder paper value used as list-access default. -/
def dummyPaper : Paper :=
  { title := "", authors := [], abstract := "", link := "" }

theorem foldlSet_length (f : Nat → α) (order : List Nat) (acc : List (Option α)) :
    (order.foldl (fun a i => a.set i (some (f i))) acc).length = acc.length := by
  induction order generalizing acc with
  | nil => rfl
  | cons j rest ih => simp [List.foldl_cons, ih]

theorem foldlSet_getElem?_of_not_mem (f : Nat → α) (order : List Nat) (acc : List (Option α))
    (i : Nat) (hi : i ∉ order) :
    (order.foldl (fun a j => a.set j (some (f j))) acc)[i]? = acc[i]? := by
  induction order generalizing acc with
  | nil => rfl
  | cons j rest ih =>
    simp only [List.foldl_cons]
    rw [ih _ (fun h => hi (List.mem_cons_of_mem _ h))]
    exact List.getElem?_set_ne (fun h => hi (List.mem_cons.mpr (Or.inl h.symm)))

theorem foldlSet_getElem?_of_mem (f : Nat → α) (order : List Nat) (acc : List (Option α))
    (i : Nat) (hmem : i ∈ order) (hlen : i < acc.length) :
    (order.foldl (fun a j => a.set j (some (f j))) acc)[i]? = some (some (f i)) := by
  induction order generalizing acc with
  | nil => cases hmem
  | cons j rest ih =>
    simp only [List.foldl_cons]
    by_cases hr : i ∈ rest
    · exact ih _ hr (by simpa using hlen)
    · have hij : i = j := by
        rcases List.mem_cons.mp hmem with h | h
        · exact h
        · exact absurd h hr
      subst hij
      rw [foldlSet_getElem?_of_not_mem f rest _ i hr]
      simp [hlen]

theorem settleAll_eq (n : Nat) (f : Nat → α) (order : List Nat)
    (h : order.Perm (List.range n)) :
    settleAll n f order = (List.range n).map (fun i => some (f i)) := by
  apply List.ext_getElem?
  intro i
  by_cases hi : i < n
  · rw [settleAll, foldlSet_getElem?_of_mem f order _ i
      (h.mem_iff.mpr (List.mem_range.mpr hi)) (by simpa using hi)]
    rw [List.getElem?_map, List.getElem?_range hi]
    rfl
  · have hn : n ≤ i := Nat.le_of_not_lt hi
    have h1 : (settleAll n f order).length = n := by
      rw [settleAll, foldlSet_length]
      simp
    rw [List.getElem?_eq_none (by rw [h1]; exact hn),
      List.getElem?_eq_none (by simpa using hn)]

theorem mapIdx_eq_range_map (l : List α) (g : Nat → α → β) (d : α) :
    l.mapIdx g = (List.range l.length).map (fun i => g i (l.getD i d)) := by
  apply List.ext_getElem?
  intro i
  rw [List.getElem?_mapIdx, List.getElem?_map]
  by_cases hi : i < l.length
  · rw [List.getElem?_range hi, List.getElem?_eq_getElem hi]
    simp [List.getD_eq_getElem?_getD, List.getElem?_eq_getElem hi]
  · rw [List.getElem?_eq_none (Nat.le_of_not_lt hi),
      List.getElem?_eq_none (by simpa using Nat.le_of_not_lt hi)]
    rfl

theorem lookupField_setEntry_ne (fs : List (String × JsValue)) (k f : String) (x : JsValue)
    (h : f ≠ k) : lookupField (setEntry fs k x) f = lookupField fs f := by
  induction fs with
  | nil => simp [setEntry, lookupField, Ne.symm h]
  | cons hd rest ih =>
    obtain ⟨k2, v2⟩ := hd
    by_cases hk : k2 = k
    · subst hk
      simp [setEntry, lookupField, Ne.symm h]
    · by_cases hf : k2 = f
      · subst hf
        simp [setEntry, lookupField, hk, h]
      · simp [setEntry, lookupField, hk, hf, ih]

theorem assignField_some_of_ne_null (v : JsValue) (k : String) (x : JsValue)
    (hv : v ≠ .null) :
    ∃ w, assignField v k x = some w ∧ ∀ f, f ≠ k → getField w f = getField v f := by
  cases v with
  | null => exact absurd rfl hv
  | obj fields =>
    exact ⟨.obj (setEntry fields k x), rfl, fun f hf => lookupField_setEntry_ne fields k f x hf⟩
  | bool b => exact ⟨.bool b, rfl, fun f hf => rfl⟩
  | num n => exact ⟨.num n, rfl, fun f hf => rfl⟩
  | str s => exact ⟨.str s, rfl, fun f hf => rfl⟩
  | arr es => exact ⟨.arr es, rfl, fun f hf => rfl⟩

theorem getResearchTags_eq_nil (r : AIResp) (h : tagCallFails r = true) :
    getResearchTags r = [] := by
  cases r with
  | thrown m => rfl
  | notOk => rfl
  | okBody choices =>
    cases choices with
    | none => rfl
    | some cs =>
      cases cs with
      | nil => rfl
      | cons c rest =>
        cases c with
        | none => rfl
        | some s => exact absurd h (by simp [tagCallFails])

/-- Modelled from the spec: the PromptSuggestion shape requires all
fields present on the response object - refinedQuery, suggestedElements
with its three sub-sequences, questionVariations, relatedConcepts and
researchTags. -/
def specAllSuggestionFieldsPresent (v : JsValue) : Bool :=
  (getField v "refinedQuery").isSome &&
  (match getField v "suggestedElements" with
   | some se =>
     (getField se "specificity").isSome &&
     (getField se "researchType").isSome &&
     (getField se "practicalApplication").isSome
   | none => false) &&
  (getField v "questionVariations").isSome &&
  (getField v "relatedConcepts").isSome &&
  (getField v "researchTags").isSome

/-- Sample arXiv entry used by concrete evaluations. -/
def sampleEntry : Entry :=
  { title := some "T", authors := [some "A"], summary := some "S", id := some "L" }

/-- Search environment whose arXiv fetch returns an empty feed. -/
def wSearchEnvEmpty : SearchEnv :=
  { arxiv := .ok [], summaryResp := fun _ => .notOk, consolidatedResp := .notOk }

/-- Report environment for a fully successful generate-report run. -/
def wReportEnv : ReportEnv :=
  { arxiv := .ok [sampleEntry]
    analysisResp := fun _ => .okBody (some [some "analysis text"])
    reportResp := .okBody (some [some "REPORT"])
    dateStr := "1/1/2025"
    db := .success }

/-- Report environment whose arXiv fetch returns an empty feed, with all
later calls succeeding. -/
def wReportEnvEmpty : ReportEnv :=
  { arxiv := .ok []
    analysisResp := fun _ => .okBody (some [some "analysis text"])
    reportResp := .okBody (some [some "REPORT"])
    dateStr := "1/1/2025"
    db := .success }

/-- The paper analyses produced by wReportEnv. -/
def wPas : List PaperAnalysis :=
  [{ paper := { title := "T", authors := ["A"], abstract := "S", link := "L" },
     analysis := "analysis text" }]

/-- The stored report row produced by wReportEnv. -/
def wRec : ReportRecord := { user_id := "u1", title := "q", content := "REPORT" }

/-- The trace produced by wReportEnv. -/
def wTr : RTrace :=
  { searchCalls := 1, analysisCalls := 1, reportCalls := 1, dbInserts := 1
    reportPromptSent := some (reportPrompt "q" "1/1/2025" wPas) }

/-- Batch oracle whose call 0 fails with a non-success status. -/
def wrespA : Nat → AIResp :=
  fun j => if j = 0 then .notOk else .okBody (some [some "fine"])

/-- Batch oracle whose call 0 fails with a thrown error. -/
def wrespB : Nat → AIResp :=
  fun j => if j = 0 then .thrown none else .okBody (some [some "fine"])

/-- Suggest environment whose model reply parses to the empty object and
whose tag call fails. -/
def cSuggestEnv : SuggestEnv :=
  { suggestionResp := .okBody (some [some "x"])
    jsonParse := fun _ => some (.obj [])
    tagResp := .notOk }

/-- Suggest environment whose model reply parses to an object with a
refinedQuery field and whose tag call throws. -/
def wSuggestEnv : SuggestEnv :=
  { suggestionResp := .okBody (some [some "reply"])
    jsonParse := fun _ => some (.obj [("refinedQuery", .str "rq")])
    tagResp := .thrown none }

/-- Suggest environment whose model reply parses to JSON null and whose
tag call fails. -/
def cNullEnv : SuggestEnv :=
  { suggestionResp := .okBody (some [some "null"])
    jsonParse := fun _ => some .null
    tagResp := .notOk }

/-- Identity-service oracle validating exactly the token tok123. -/
def wGetUser : String → GetUserResult :=
  fun t => if t = "tok123" then .ok { id := "user-1" } else .err

/-- Identity-service oracle validating exactly the token good. -/
def wGetUser2 : String → GetUserResult :=
  fun t => if t = "good" then .ok { id := "u9" } else .err

/-- Field read on a suggest-prompt route response: fields of the JSON
body, none for a forwarded error. -/
def getFieldOfResponse : SuggestResponse → String → Option JsValue
  | .forwarded, _ => none
  | .jsonOk v, f => getField v f

/-- C3: a search-papers or generate-report request whose body lacks the
query field is answered with status 400 and body error "Query is
required", and no outbound call (neither to the search API nor to the
completion API, nor any insert) is issued. -/
theorem missing_query_yields_400_and_no_calls
    (senv : SearchEnv) (user : Option UserRec) (renv : ReportEnv) :
    searchPapers none senv = (.badRequest "Query is required", ⟨0, 0, 0⟩) ∧
    generateReport none user renv = (.badRequest "Query is required", ⟨0, 0, 0, 0, none⟩) := by
  exact ⟨rfl, rfl⟩

/-- C2: when the search stage of a search-papers request returns zero
entry elements, the handler responds with papers [], summaries [] and
consolidatedSummary "", and issues zero calls to the AI completion
endpoint. -/
theorem empty_search_short_circuits (query : Option String) (env : SearchEnv)
    (hq : jsTruthy query = true) (he : env.arxiv = .ok []) :
    searchPapers query env = (.success [] [] "", ⟨1, 0, 0⟩) := by
  simp [searchPapers, hq, he]

/-- C2 witness: a concrete request with a truthy query and an empty
search result. -/
theorem empty_search_short_circuits_witness :
    jsTruthy (some "quantum") = true ∧
    searchPapers (some "quantum") wSearchEnvEmpty = (.success [] [] "", ⟨1, 0, 0⟩) :=
  ⟨by decide, empty_search_short_circuits (some "quantum") wSearchEnvEmpty (by decide) rfl⟩

/-- C1: for every enrichment batch over N input papers, in summary mode
and in analysis mode, the settled result has length exactly N, its i-th
element is the enrichment of the i-th input paper built from the outcome
of the i-th completion call (so individual failures only affect their
own slot), and the arena-indexed join produces this same positional
result for every completion order of the batch. -/
theorem enrich_batch_length_and_order
    (papers : List Paper) (sresp aresp : Nat → AIResp) (order : List Nat)
    (h : order.Perm (List.range papers.length)) :
    (summariesOf papers sresp).length = papers.length ∧
    (analysesOf papers aresp).length = papers.length ∧
    (∀ i, (summariesOf papers sresp)[i]? =
      (papers[i]?).map (fun p => summarizeOne p (sresp i))) ∧
    (∀ i, (analysesOf papers aresp)[i]? =
      (papers[i]?).map (fun p => analyzeOne p (aresp i))) ∧
    settleAll papers.length (fun i => summarizeOne (papers.getD i dummyPaper) (sresp i)) order =
      (summariesOf papers sresp).map some ∧
    settleAll papers.length (fun i => analyzeOne (papers.getD i dummyPaper) (aresp i)) order =
      (analysesOf papers aresp).map some := by
  refine ⟨by simp [summariesOf], by simp [analysesOf], ?_, ?_, ?_, ?_⟩
  · intro i
    simp [summariesOf]
  · intro i
    simp [analysesOf]
  · rw [settleAll_eq _ _ _ h, summariesOf, mapIdx_eq_range_map _ _ dummyPaper, List.map_map]
    rfl
  · rw [settleAll_eq _ _ _ h, analysesOf, mapIdx_eq_range_map _ _ dummyPaper, List.map_map]
    rfl

/-- C1 witness: a two-paper batch whose calls complete in reversed
order. -/
theorem enrich_batch_length_and_order_witness :
    ([1, 0] : List Nat).Perm (List.range 2) ∧
    (summariesOf [dummyPaper, dummyPaper] (fun _ => AIResp.notOk)).length = 2 := by
  refine ⟨by decide, ?_⟩
  exact (enrich_batch_length_and_order [dummyPaper, dummyPaper]
    (fun _ => .notOk) (fun _ => .notOk) [1, 0] (by decide)).1

/-- C4 counterexample: a summary-mode batch whose only completion call
returns a non-success status yields the placeholder "Summary failed due
to API error" for that slot, not the single fixed string "Summary
generation failed" the claim states for every failure. -/
theorem per_paper_failure_placeholder_counterexample :
    summariesOf [dummyPaper] (fun _ => AIResp.notOk) ≠ ["Summary generation failed"] := by
  decide

/-- C4 (amended): each per-paper completion failure yields a fixed
placeholder string for that paper slot only, but the string depends on
the failure kind - non-success status gives "Summary failed due to API
error" and "Analysis failed due to API error", a structurally invalid
body gives "Summary failed: No valid response" and "Analysis failed: No
valid response from AI", and a thrown error gives "Summary generation
failed" and "Analysis failed due to server error" - sibling slots do not
depend on that call outcome and the batch still settles with one slot
per paper. -/
theorem per_paper_failure_placeholders
    (papers : List Paper) (resp resp2 : Nat → AIResp) (i : Nat) (m : Option String)
    (hagree : ∀ j, j ≠ i → resp j = resp2 j) :
    (∀ p, summarizeOne p .notOk = "Summary failed due to API error" ∧
      summarizeOne p (.okBody none) = "Summary failed: No valid response" ∧
      summarizeOne p (.okBody (some [])) = "Summary failed: No valid response" ∧
      summarizeOne p (.thrown m) = "Summary generation failed" ∧
      (analyzeOne p .notOk).analysis = "Analysis failed due to API error" ∧
      (analyzeOne p (.okBody none)).analysis = "Analysis failed: No valid response from AI" ∧
      (analyzeOne p (.thrown m)).analysis = "Analysis failed due to server error" ∧
      (analyzeOne p (.thrown m)).paper = p) ∧
    (∀ j, j ≠ i → (summariesOf papers resp)[j]? = (summariesOf papers resp2)[j]?) ∧
    (∀ j, j ≠ i → (analysesOf papers resp)[j]? = (analysesOf papers resp2)[j]?) ∧
    (summariesOf papers resp).length = papers.length ∧
    (analysesOf papers resp).length = papers.length := by
  refine ⟨?_, ?_, ?_, by simp [summariesOf], by simp [analysesOf]⟩
  · intro p
    exact ⟨rfl, rfl, rfl, rfl, rfl, rfl, rfl, rfl⟩
  · intro j hj
    simp [summariesOf, hagree j hj]
  · intro j hj
    simp [analysesOf, hagree j hj]

/-- C4 witness: a two-paper batch where call 0 fails with a non-success
status in one run and a thrown error in the other, call 1 agreeing. -/
theorem per_paper_failure_placeholders_witness :
    summarizeOne dummyPaper .notOk = "Summary failed due to API error" ∧
    (summariesOf [dummyPaper, dummyPaper] wrespA)[1]? =
      (summariesOf [dummyPaper, dummyPaper] wrespB)[1]? := by
  have h := per_paper_failure_placeholders [dummyPaper, dummyPaper] wrespA wrespB 0 none
    (by
      intro j hj
      simp [wrespA, wrespB, hj])
  exact ⟨(h.1 dummyPaper).1, h.2.1 1 (by decide)⟩

/-- C5: every successful generate-report response was produced by exactly
one database insert, and the savedReport record carries the same content
string as the report field of the response body. -/
theorem report_persists_once_and_echoes_content
    (query : Option String) (user : Option UserRec) (env : ReportEnv)
    (r : String) (ps : List PaperAnalysis) (rec : ReportRecord) (tr : RTrace)
    (h : generateReport query user env = (.success r ps rec, tr)) :
    tr.dbInserts = 1 ∧ rec.content = r := by
  rw [generateReport] at h
  repeat' split at h
  all_goals simp_all
  obtain ⟨⟨h1, h2, h3⟩, h4⟩ := h
  subst h1
  subst h3
  subst h4
  exact ⟨rfl, rfl⟩

/-- C5 witness: a concrete fully successful generate-report run. -/
theorem report_persists_once_and_echoes_content_witness :
    wTr.dbInserts = 1 ∧ wRec.content = "REPORT" :=
  report_persists_once_and_echoes_content (some "q") (some ⟨"u1"⟩) wReportEnv
    "REPORT" wPas wRec wTr (by rfl)

/-- C10: a generate-report request whose search returns zero entry
elements does not short-circuit - no analysis call is made over the
empty batch, the structured-report prompt is built over the empty
dataset and sent in one report completion call, and when that call and
the insert succeed the resulting report is persisted and returned. -/
theorem report_flow_no_empty_short_circuit
    (query : Option String) (user : Option UserRec) (env : ReportEnv) (u : UserRec)
    (hq : jsTruthy query = true) (he : env.arxiv = .ok []) :
    (generateReport query user env).2.analysisCalls = 0 ∧
    (generateReport query user env).2.reportCalls = 1 ∧
    (generateReport query user env).2.reportPromptSent =
      some (reportPrompt (query.getD "") env.dateStr []) ∧
    (∀ r rest, env.reportResp = .okBody (some (some r :: rest)) → r ≠ "" →
      user = some u → u.id ≠ "" → env.db = .success →
      generateReport query user env =
        (.success r [] { user_id := u.id, title := query.getD "", content := r },
          ⟨1, 0, 1, 1, some (reportPrompt (query.getD "") env.dateStr [])⟩)) := by
  obtain ⟨ax, ar, rr, ds, db⟩ := env
  simp only at he
  subst he
  refine ⟨?_, ?_, ?_, ?_⟩
  · rw [generateReport]
    simp only [hq]
    cases rr <;> simp [analysesOf] <;> (repeat' split) <;> simp
  · rw [generateReport]
    simp only [hq]
    cases rr <;> simp [analysesOf] <;> (repeat' split) <;> simp
  · rw [generateReport]
    simp only [hq]
    cases rr <;> simp [analysesOf] <;> (repeat' split) <;> simp
  · intro r rest hrr hr hu hid hdb
    simp only at hrr hdb
    subst hrr
    subst hdb
    subst hu
    rw [generateReport]
    simp [hq, hr, hid, analysesOf]

/-- C10 witness: a concrete generate-report run over an empty search
result that still produces and persists a report. -/
theorem report_flow_no_empty_short_circuit_witness :
    jsTruthy (some "q") = true ∧
    generateReport (some "q") (some ⟨"u1"⟩) wReportEnvEmpty =
      (.success "REPORT" [] { user_id := "u1", title := "q", content := "REPORT" },
        ⟨1, 0, 1, 1, some (reportPrompt "q" "1/1/2025" [])⟩) := by
  refine ⟨by decide, ?_⟩
  exact (report_flow_no_empty_short_circuit (some "q") (some ⟨"u1"⟩) wReportEnvEmpty ⟨"u1"⟩
    (by decide) rfl).2.2.2 "REPORT" [] rfl (by decide) rfl (by decide) rfl

/-- C6 counterexample: with a model reply that parses to the empty JSON
object (a valid parse producing no sub-fields) and a failing tag call,
the suggest-prompt response object carries only the researchTags field -
refinedQuery, suggestedElements, questionVariations and relatedConcepts
are absent, so the claimed empty-default substitution does not happen. -/
theorem suggestion_fields_counterexample :
    (suggestPromptRoute (some "q") cSuggestEnv).1 =
      .jsonOk (.obj [("researchTags", .arr [])]) ∧
    specAllSuggestionFieldsPresent (.obj [("researchTags", .arr [])]) = false := by
  exact ⟨rfl, rfl⟩

/-- C6 (amended): the suggest-prompt response object is exactly the
parsed model reply with the researchTags property assigned from the
auxiliary tag call; no other field is added or defaulted, so any
sub-field the parse does not produce stays absent; a reply whose JSON
parse throws fails the whole request via error forwarding, and so does a
reply parsing to null, on which the researchTags assignment throws a
TypeError. -/
theorem suggestion_fields_from_parse_only
    (iq : Option String) (env : SuggestEnv) (c : Option String)
    (rest : List (Option String)) (v : JsValue)
    (h1 : env.suggestionResp = .okBody (some (c :: rest)))
    (h2 : env.jsonParse (jsOr c "\x7b\x7d") = some v) :
    (v ≠ .null → ∃ body,
      assignField v "researchTags"
        (.arr ((getResearchTags env.tagResp).map .str)) = some body ∧
      (suggestPromptRoute iq env).1 = .jsonOk body ∧
      ∀ f, f ≠ "researchTags" → getField body f = getField v f) ∧
    (v = .null → (suggestPromptRoute iq env).1 = .forwarded) ∧
    (∀ iq2 (env2 : SuggestEnv), env2.suggestionResp = .okBody (some (c :: rest)) →
      env2.jsonParse (jsOr c "\x7b\x7d") = none →
      (suggestPromptRoute iq2 env2).1 = .forwarded) := by
  obtain ⟨sr, jp, tg⟩ := env
  simp only at h1 h2
  subst h1
  refine ⟨?_, ?_, ?_⟩
  · intro hv
    obtain ⟨w, hw, hfields⟩ := assignField_some_of_ne_null v "researchTags"
      (.arr ((getResearchTags tg).map .str)) hv
    exact ⟨w, hw, by simp [suggestPromptRoute, h2, hw], hfields⟩
  · intro hv
    subst hv
    simp [suggestPromptRoute, h2, assignField]
  · intro iq2 env2 hsr2 hjp2
    obtain ⟨sr2, jp2, tg2⟩ := env2
    simp only at hsr2 hjp2
    subst hsr2
    simp [suggestPromptRoute, hjp2]

/-- C6 witness: a concrete suggest-prompt run whose reply parses to the
empty object. -/
theorem suggestion_fields_from_parse_only_witness :
    ∃ body,
      assignField (.obj []) "researchTags"
        (.arr ((getResearchTags cSuggestEnv.tagResp).map .str)) = some body ∧
      (suggestPromptRoute (some "q") cSuggestEnv).1 = .jsonOk body ∧
      ∀ f, f ≠ "researchTags" → getField body f = getField (.obj []) f :=
  (suggestion_fields_from_parse_only (some "q") cSuggestEnv (some "x") []
    (.obj []) rfl rfl).1 (by intro h; exact JsValue.noConfusion h)

/-- C7 counterexample: a suggest-prompt request whose model reply parses
to JSON null and whose tag call fails with a non-success status: the
researchTags assignment on null throws a TypeError, so the request
itself fails via error forwarding, contradicting the claim that the
request does not fail when the tag call fails. -/
theorem tag_failure_request_fails_counterexample :
    tagCallFails cNullEnv.tagResp = true ∧
    (suggestPromptRoute (some "q") cNullEnv).1 = .forwarded := by
  exact ⟨rfl, rfl⟩

/-- C7 (amended): when the auxiliary tag call of a suggest-prompt
request fails and the parsed suggestion value is not null, the response
researchTags field is the empty sequence, the request still succeeds
with a JSON body, and every other field of the response equals what the
same request would produce under any other tag call outcome; when the
parsed value is null, the researchTags assignment throws and the request
fails regardless of the tag call outcome. -/
theorem tag_failure_degrades_to_empty_tags
    (iq : Option String) (env : SuggestEnv) (c : Option String)
    (rest : List (Option String)) (v : JsValue) (t2 : AIResp)
    (h1 : env.suggestionResp = .okBody (some (c :: rest)))
    (h2 : env.jsonParse (jsOr c "\x7b\x7d") = some v)
    (h3 : tagCallFails env.tagResp = true)
    (hv : v ≠ .null) :
    (∃ body, assignField v "researchTags" (.arr []) = some body ∧
      (suggestPromptRoute iq env).1 = .jsonOk body) ∧
    (∀ f, f ≠ "researchTags" →
      getFieldOfResponse ((suggestPromptRoute iq env).1) f =
        getFieldOfResponse ((suggestPromptRoute iq { env with tagResp := t2 }).1) f) ∧
    (∀ iq3 (env3 : SuggestEnv), env3.suggestionResp = .okBody (some (c :: rest)) →
      env3.jsonParse (jsOr c "\x7b\x7d") = some JsValue.null →
      (suggestPromptRoute iq3 env3).1 = .forwarded) := by
  obtain ⟨sr, jp, tg⟩ := env
  simp only at h1 h2 h3
  subst h1
  have htags : getResearchTags tg = [] := getResearchTags_eq_nil tg h3
  obtain ⟨w, hw, hfw⟩ := assignField_some_of_ne_null v "researchTags" (.arr []) hv
  obtain ⟨w2, hw2, hfw2⟩ := assignField_some_of_ne_null v "researchTags"
    (.arr ((getResearchTags t2).map .str)) hv
  refine ⟨⟨w, hw, ?_⟩, ?_, ?_⟩
  · simp [suggestPromptRoute, h2, htags, hw]
  · intro f hf
    simp only [suggestPromptRoute]
    simp [h2, htags, hw, hw2, getFieldOfResponse]
    rw [hfw f hf, hfw2 f hf]
  · intro iq3 env3 hsr3 hjp3
    obtain ⟨sr3, jp3, tg3⟩ := env3
    simp only at hsr3 hjp3
    subst hsr3
    simp [suggestPromptRoute, hjp3, assignField]

/-- C7 witness: a concrete suggest-prompt run whose tag call throws and
whose reply parses to an object, compared at the refinedQuery field with
a run whose tag call succeeds. -/
theorem tag_failure_degrades_to_empty_tags_witness :
    (∃ body, assignField (.obj [("refinedQuery", .str "rq")]) "researchTags"
        (.arr []) = some body ∧
      (suggestPromptRoute (some "q") wSuggestEnv).1 = .jsonOk body) ∧
    getFieldOfResponse ((suggestPromptRoute (some "q") wSuggestEnv).1) "refinedQuery" =
      getFieldOfResponse ((suggestPromptRoute (some "q")
        { wSuggestEnv with tagResp := AIResp.okBody (some [some "a, b"]) }).1) "refinedQuery" := by
  have h := tag_failure_degrades_to_empty_tags (some "q") wSuggestEnv (some "reply") []
    (.obj [("refinedQuery", .str "rq")]) (.okBody (some [some "a, b"])) rfl rfl rfl
    (by intro h; exact JsValue.noConfusion h)
  exact ⟨h.1, h.2.1 "refinedQuery" (by decide)⟩

/-- C9: the suggest-prompt handler performs no input validation at the
public interface - with the initialQuery field absent the request is not
rejected with a 400 validation error (the response type of the route has
no such outcome and the main completion call is always issued first),
and the prompt of that call renders the missing value as the literal
text "undefined". -/
theorem suggest_no_input_validation (env : SuggestEnv) :
    (suggestPromptRoute none env).2.head? = some (suggestPromptText none) ∧
    (suggestPromptRoute none env).2 ≠ [] ∧
    suggestPromptText none = suggestPromptText (some "undefined") := by
  obtain ⟨sr, jp, tg⟩ := env
  have h : ∃ restL, (suggestPromptRoute none ⟨sr, jp, tg⟩).2 =
      suggestPromptText none :: restL := by
    cases sr with
    | thrown m => exact ⟨[], rfl⟩
    | notOk => exact ⟨[], rfl⟩
    | okBody choices =>
      cases choices with
      | none => exact ⟨[], rfl⟩
      | some cs =>
        cases cs with
        | nil => exact ⟨[], rfl⟩
        | cons c rest2 =>
          rcases hjp : jp (jsOr c "\x7b\x7d") with _ | v
          · exact ⟨[], by simp [suggestPromptRoute, hjp]⟩
          · exact ⟨[tagPromptText none], by simp [suggestPromptRoute, hjp]⟩
  obtain ⟨restL, hr⟩ := h
  rw [hr]
  exact ⟨rfl, by simp, rfl⟩

/-- C8 counterexample: on the suggest-prompt middleware a request whose
Authorization header is a bare token without the Bearer form is granted
when the identity service validates that bare string, and the
business-logic handler runs - so the Bearer form is not required on
every protected route. -/
theorem bearer_form_not_required_counterexample :
    authenticateUser (some "tok123") wGetUser = .granted ⟨"user-1"⟩ ∧
    runProtected (authenticateUser (some "tok123") wGetUser)
      (fun _ => ((0 : Nat), 5)) = (.inl 0, 5) := by
  exact ⟨rfl, rfl⟩

/-- C8 (amended): whenever the identity service does not validate the
token presented by the request, both middlewares answer 401 and the
handler never runs so no business-logic call is issued - for
authenticateToken the presented token is the second space-separated part
of the header, for authenticateUser the header with a first "Bearer "
occurrence stripped; an Authorization header that is missing, or on
authenticateToken does not start with "Bearer ", or on authenticateUser
is empty, is likewise answered 401 with the handler never run. -/
theorem auth_failure_rejected_before_business_logic {ρ : Type}
    (h2 : String) (getUser : String → GetUserResult) (handler : UserRec → ρ × Nat) :
    (jsStartsWith h2 "Bearer " = true →
      (∀ u, getUser ((jsSplit h2 " ").getD 1 "") ≠ .ok u) →
      ∃ m, runProtected (authenticateToken (some h2) getUser) handler =
        (.inr (401, m), 0)) ∧
    (jsStartsWith h2 "Bearer " = false →
      runProtected (authenticateToken (some h2) getUser) handler =
        (.inr (401, "No token provided"), 0)) ∧
    (h2 ≠ "" → (∀ u, getUser (replaceFirst h2 "Bearer " "") ≠ .ok u) →
      ∃ m, runProtected (authenticateUser (some h2) getUser) handler =
        (.inr (401, m), 0)) ∧
    runProtected (authenticateToken none getUser) handler =
      (.inr (401, "No token provided"), 0) ∧
    runProtected (authenticateUser none getUser) handler =
      (.inr (401, "No authorization header"), 0) ∧
    runProtected (authenticateUser (some "") getUser) handler =
      (.inr (401, "No authorization header"), 0) := by
  refine ⟨?_, ?_, ?_, rfl, rfl, rfl⟩
  · intro hs hfail
    rcases hg : getUser ((jsSplit h2 " ").getD 1 "") with u | _ | _
    · exact absurd hg (hfail u)
    · refine ⟨"Invalid token", ?_⟩
      have hd : authenticateToken (some h2) getUser = .denied 401 "Invalid token" := by
        rw [authenticateToken, hs, if_neg (show ¬(true = false) by decide), hg]
      rw [hd]
      rfl
    · refine ⟨"Authentication failed", ?_⟩
      have hd : authenticateToken (some h2) getUser = .denied 401 "Authentication failed" := by
        rw [authenticateToken, hs, if_neg (show ¬(true = false) by decide), hg]
      rw [hd]
      rfl
  · intro hs
    have hd : authenticateToken (some h2) getUser = .denied 401 "No token provided" := by
      rw [authenticateToken]
      simp [hs]
    rw [hd]
    rfl
  · intro he hfail
    rcases hg : getUser (replaceFirst h2 "Bearer " "") with u | _ | _
    · exact absurd hg (hfail u)
    · refine ⟨"Invalid token", ?_⟩
      have hd : authenticateUser (some h2) getUser = .denied 401 "Invalid token" := by
        rw [authenticateUser, if_neg he, hg]
      rw [hd]
      rfl
    · refine ⟨"Authentication failed", ?_⟩
      have hd : authenticateUser (some h2) getUser = .denied 401 "Authentication failed" := by
        rw [authenticateUser, if_neg he, hg]
      rw [hd]
      rfl

/-- C8 witness: the identity service validates the token good, but the
request presents Bearer bad - answered 401 with the handler never run. -/
theorem auth_failure_rejected_before_business_logic_witness :
    ∃ m, runProtected (authenticateToken (some "Bearer bad") wGetUser2)
      (fun _ => ((0 : Nat), 7)) = (.inr (401, m), 0) := by
  refine (auth_failure_rejected_before_business_logic "Bearer bad" wGetUser2
    (fun _ => ((0 : Nat), 7))).1 (by decide) ?_
  intro u h
  have he : wGetUser2 ((jsSplit "Bearer bad" " ").getD 1 "") = GetUserResult.err := by
    decide
  rw [he] at h
  exact GetUserResult.noConfusion h
